import Mathlib

/-!
Verification development for the medicine-finder storefront (`src/app.py`).

The two cores embedded here are the checkout engine (`checkout`, app.py
lines 274-312) and the chat-completion fallback chain (`get_ai_response`,
app.py lines 70-102).  The SQLAlchemy session is modelled functionally: a
`DBState` value is threaded through `checkout`; `db.session.rollback()` on
any error branch is modelled by returning the original state, and a
commit-time storage fault is modelled by a boolean `commitOk` parameter
(the code's `db.session.commit()` inside `try/except`).
-/

set_option autoImplicit false

namespace MedicineFinder

/-- A JSON-derived Python value as it can appear in a cart-line field of the
`request.json` payload.  Python bools and ints are numeric (`num`); strings,
arrays (abstracted to their length, which is all truthiness needs), objects
and `null` are non-numeric.  Arbitrary-precision client numerics are modelled
as rationals. -/
inductive PyVal where
  | num (q : ℚ)
  | str (s : String)
  | arr (n : ℕ)
  | obj
  | null
  deriving DecidableEq, Repr

/-- Python truthiness, used by `if 'id' not in item or not item['id']`
(app.py line 286). -/
def PyVal.truthy : PyVal → Bool
  | .num q => q != 0
  | .str s => s != ""
  | .arr n => n != 0
  | .obj => true
  | .null => false

/-- Reading a possibly-absent field as a number.  `none` models the two ways
`total += item['price'] * item['quantity']` (app.py line 290) can raise one
of the caught exceptions: `KeyError` when the field is absent, and
`TypeError` when a non-numeric JSON value reaches `*` or `+=` (a sequence
repetition such as `str * int` succeeds at `*` but then raises `TypeError`
when added to the numeric running total, so every non-numeric field is
caught). -/
def asNum : Option PyVal → Option ℚ
  | some (.num q) => some q
  | _ => none

/-- One client-supplied cart line: `{id, name, price, quantity}` keys of the
JSON object, each possibly absent. -/
structure CartItem where
  id : Option PyVal
  name : Option String
  price : Option PyVal
  quantity : Option PyVal
  deriving DecidableEq, Repr

/-- `item.get("name", "unknown")` (app.py lines 288, 293, 298). -/
def nameOr (item : CartItem) : String :=
  item.name.getD "unknown"

/-- A `Medicine` row (app.py lines 37-41).  The `quantity` column is an
integer column, but the staged in-memory value is a rational because the
code subtracts the client-supplied (possibly fractional) quantity from it. -/
structure Medicine where
  id : ℤ
  name : String
  quantity : ℚ
  price : ℚ
  deriving DecidableEq, Repr

/-- An `OrderItem` row (app.py lines 50-56): quantity and price are the
client-supplied snapshot values (app.py line 303). -/
structure OrderItem where
  medicineId : ℤ
  quantity : ℚ
  price : ℚ
  deriving DecidableEq, Repr

/-- An `Order` row (app.py lines 43-48) together with its line items. -/
structure Order where
  userId : ℤ
  total : ℚ
  items : List OrderItem
  deriving DecidableEq, Repr

/-- The persistent store visible to checkout: the medicine catalog and the
order ledger. -/
structure DBState where
  catalog : List Medicine
  orders : List Order
  deriving DecidableEq, Repr

/-- The id value used for the lookup `Medicine.query.get(item['id'])`
(app.py line 295).  A numeric id matches a row with that exact id; a string
id is coerced by the SQLite integer column affinity, so it matches when it
reads as an integer.  Other JSON values match no row. -/
def idOfVal : PyVal → Option ℚ
  | .num q => some q
  | .str s => (s.toInt?).map (fun n => (n : ℚ))
  | _ => none

/-- `Medicine.query.get(item['id'])`: the first catalog row whose id matches
the (coerced) id value.  The staged catalog is searched because SQLAlchemy's
identity map returns the session-resident object, which carries the
decrements already staged by earlier lines of the same cart. -/
def getMedicine (cat : List Medicine) (v : PyVal) : Option Medicine :=
  (idOfVal v).bind (fun q => cat.find? (fun m => (m.id : ℚ) == q))

/-- `medicine.quantity -= item['quantity']` (app.py line 302): decrement the
quantity of the first catalog row with the given id (the row the lookup
returned), leaving every other row untouched. -/
def decrementFirst (cat : List Medicine) (mid : ℤ) (amt : ℚ) : List Medicine :=
  match cat with
  | [] => []
  | m :: rest =>
    if m.id = mid then { m with quantity := m.quantity - amt } :: rest
    else m :: decrementFirst rest mid amt

/-- The error kinds of the checkout route's `{'error': ...}` responses
(HTTP 400, and 500 for commit failure). -/
inductive CheckoutError where
  | emptyCart
  | missingId (name : String)
  | invalidLineData (name : String)
  | itemNotFound (name : String)
  | insufficientStock (name : String)
  | commitFailed
  deriving DecidableEq, Repr

/-- Outcome of a checkout call: a success JSON response carrying the
computed total, a handled error JSON response, or an unhandled Python
exception escaping the route (the `item["name"]` `KeyError` of app.py
line 301). -/
inductive CheckoutResult where
  | ok (total : ℚ)
  | err (e : CheckoutError)
  | exc
  deriving DecidableEq, Repr

/-- True exactly on a success outcome. -/
def CheckoutResult.isOk : CheckoutResult → Bool
  | .ok _ => true
  | _ => false

/-- How a cart line can fail: a handled error response or the unhandled
KeyError. -/
inductive CheckoutFailure where
  | err (e : CheckoutError)
  | exc
  deriving DecidableEq, Repr

/-- The outcome the route reports for a failing line. -/
def CheckoutFailure.toResult : CheckoutFailure → CheckoutResult
  | .err e => .err e
  | .exc => .exc

/-- The per-line loop of checkout (app.py lines 285-304), processing cart
lines in input order against the staged catalog, accumulating the running
total and the staged order items.  An `Except.error` carries the outcome of
a failing line (after which the route rolls back). -/
def processCart : List CartItem → List Medicine → ℚ → List OrderItem →
    Except CheckoutFailure (List Medicine × ℚ × List OrderItem)
  | [], cat, total, items => .ok (cat, total, items)
  | item :: rest, cat, total, items =>
    match item.id with
    | none => .error (.err (.missingId (nameOr item)))
    | some idv =>
      if idv.truthy = false then .error (.err (.missingId (nameOr item)))
      else
        match asNum item.price, asNum item.quantity with
        | some p, some q =>
          (match getMedicine cat idv with
           | none => .error (.err (.itemNotFound (nameOr item)))
           | some m =>
             if m.quantity < q then
               match item.name with
               | none => .error .exc
               | some n => .error (.err (.insufficientStock n))
             else
               processCart rest (decrementFirst cat m.id q) (total + p * q)
                 (items ++ [⟨m.id, q, p⟩]))
        | _, _ => .error (.err (.invalidLineData (nameOr item)))

/-- The checkout route (app.py lines 274-312).  `commitOk` models whether
`db.session.commit()` succeeds; on any handled error, unhandled exception, or
commit failure the session is rolled back (no staged write persists), so the
returned state is the original one. -/
def checkout (commitOk : Bool) (userId : ℤ) (cart : List CartItem)
    (db : DBState) : CheckoutResult × DBState :=
  if cart.isEmpty then (.err .emptyCart, db)
  else
    match processCart cart db.catalog 0 [] with
    | .error f => (f.toResult, db)
    | .ok (cat, total, items) =>
      if commitOk then
        (.ok total,
         { catalog := cat, orders := db.orders ++ [⟨userId, total, items⟩] })
      else (.err .commitFailed, db)

/-! Chat responder (app.py lines 70-102).  A provider call either raises
(`failure`, covering timeouts, rejections and a `None` message content,
whose `.strip()` raises inside the same `try`) or returns the content
string of its first choice (`success`). -/

/-- Result of one `client.chat.completions.create` call for one model. -/
inductive ProviderOutcome where
  | success (content : String)
  | failure
  deriving DecidableEq, Repr

/-- Drop leading whitespace characters from a character list. -/
def dropWhileWs : List Char → List Char
  | [] => []
  | c :: cs => if c.isWhitespace then dropWhileWs cs else c :: cs

/-- Python's `str.strip()` with no arguments (app.py line 98): remove
leading and trailing whitespace. -/
def pyStrip (s : String) : String :=
  ⟨dropWhileWs (dropWhileWs s.data.reverse).reverse⟩

/-- The fixed ordered provider priority list (app.py lines 84-88). -/
def model_priority : List String :=
  ["meta-llama/llama-3.1-8b-instruct",
   "google/gemma-7b-it",
   "nousresearch/hermes-2-pro-mistral"]

/-- The fixed apology string returned when every provider fails
(app.py line 102). -/
def apologyMessage : String :=
  "Sorry, I encountered an issue with all available AI models. Please try again later."

/-- The `for model in model_priority` loop (app.py lines 90-102): try each
model once in order; on the first successful call return its stripped
content, counting one logged `[WARN]` line per failed provider; if all fail,
return the apology string.  Returns (response, number of warnings logged). -/
def tryModels (call : String → ProviderOutcome) : List String → String × ℕ
  | [] => (apologyMessage, 0)
  | m :: rest =>
    match call m with
    | .success c => (pyStrip c, 0)
    | .failure =>
      let p := tryModels call rest
      (p.1, p.2 + 1)

/-- `get_ai_response` restricted to its fallback core: the message-list
construction (lines 71-82) does not affect which provider answers, so the
provider behaviour is abstracted as `call`. -/
def get_ai_response (call : String → ProviderOutcome) : String × ℕ :=
  tryModels call model_priority

/-! Concrete provider behaviours used as witnesses. -/

/-- Providers 1 and 2 raise, provider 3 answers "OK". -/
def chainScenarioCall : String → ProviderOutcome := fun m =>
  if m = "nousresearch/hermes-2-pro-mistral" then .success "OK" else .failure

/-- Provider 1 succeeds with empty content while provider 2 would have
answered "OK". -/
def emptySuccessCall : String → ProviderOutcome := fun m =>
  if m = "meta-llama/llama-3.1-8b-instruct" then .success "" else .success "OK"

/-- Every provider call raises. -/
def allFailCall : String → ProviderOutcome := fun _ => .failure

/-! Specification-level views of the checkout data, used to state the
claims about totals, decrements and invariants. -/

/-- The running total checkout accumulates: over its lines, the
client-supplied price times the client-supplied quantity (app.py
line 290). -/
def cartTotal (cart : List CartItem) : ℚ :=
  (cart.map (fun l => ((asNum l.price).getD 0) * ((asNum l.quantity).getD 0))).sum

/-- Sum over stored order lines of quantity times unit price (the spec's
Order.totalAmount invariant). -/
def itemsSum (items : List OrderItem) : ℚ :=
  (items.map (fun i => i.quantity * i.price)).sum

/-- The id of the catalog row a cart line resolves to (if any): the row
`Medicine.query.get(item['id'])` would return against the given catalog. -/
def lineKey (cat : List Medicine) (l : CartItem) : Option ℤ :=
  l.id.bind (fun v => (getMedicine cat v).map Medicine.id)

/-- Total quantity the cart requests from the catalog row with the given
id, summed over all lines resolving to it. -/
def requestedFor (cat : List Medicine) (cart : List CartItem) (mid : ℤ) : ℚ :=
  (cart.map (fun l =>
    if lineKey cat l = some mid then (asNum l.quantity).getD 0 else 0)).sum

/-- Row-by-row relation between a catalog before and after a successful
checkout of `cart`: ids, names and prices are untouched and each row's
quantity drops by exactly the total quantity the cart requested from it. -/
def DecrementedBy (cart : List CartItem) (cat cat' : List Medicine) : Prop :=
  List.Forall₂ (fun m m' => m'.id = m.id ∧ m'.name = m.name ∧ m'.price = m.price ∧
    m'.quantity = m.quantity - requestedFor cat cart m.id) cat cat'

/-- Row-by-row non-negativity preservation: any catalog row whose quantity
was non-negative before still is after. -/
def NonnegPres (cat cat' : List Medicine) : Prop :=
  List.Forall₂ (fun m m' => 0 ≤ m.quantity → 0 ≤ m'.quantity) cat cat'

/-- A one-medicine store used as a concrete witness state: Paracetamol,
stock 100 (integer price so that concrete runs reduce in the kernel). -/
def db0 : DBState :=
  { catalog := [{ id := 1, name := "Paracetamol", quantity := 100, price := 6 }],
    orders := [] }

/-- The spec's checkout scenario store: Paracetamol, stock 100,
price 5.99 (app.py line 109). -/
def dbScenario : DBState :=
  { catalog := [{ id := 1, name := "Paracetamol", quantity := 100, price := 5.99 }],
    orders := [] }

/-- The spec's scenario cart: one line, Paracetamol, price 5.99,
quantity 2. -/
def cartScenario : List CartItem :=
  [{ id := some (.num 1), name := some "Paracetamol",
     price := some (.num 5.99), quantity := some (.num 2) }]

/-- A cart line with a negative requested quantity (-3) for catalog id 1. -/
def negQtyItem : CartItem :=
  { id := some (.num 1), name := some "Paracetamol",
    price := some (.num 6), quantity := some (.num (-3)) }

/-- C4 (counterexample): the responder does not check the successful
response for non-emptiness.  With the first provider succeeding with empty
content and the second ready to answer "OK", `get_ai_response` returns the
empty string (with no warning logged) instead of a first non-empty
response. -/
theorem get_ai_response_returns_empty_success :
    emptySuccessCall "meta-llama/llama-3.1-8b-instruct" = .success "" ∧
    emptySuccessCall "google/gemma-7b-it" = .success "OK" ∧
    get_ai_response emptySuccessCall = ("", 0) := by
  refine ⟨by decide, by decide, by decide⟩

/-- C4 (amended): the responder tries the fixed ordered list of 3 providers
sequentially, one attempt each; on the first provider whose call succeeds
it returns that provider's response stripped of surrounding whitespace
(even when the stripped response is empty) and tries no further providers,
and each failing provider before it logs exactly one warning. -/
theorem get_ai_response_fallback_chain (call : String → ProviderOutcome) :
    (∀ c, call "meta-llama/llama-3.1-8b-instruct" = .success c →
      get_ai_response call = (pyStrip c, 0)) ∧
    (∀ c, call "meta-llama/llama-3.1-8b-instruct" = .failure →
      call "google/gemma-7b-it" = .success c →
      get_ai_response call = (pyStrip c, 1)) ∧
    (∀ c, call "meta-llama/llama-3.1-8b-instruct" = .failure →
      call "google/gemma-7b-it" = .failure →
      call "nousresearch/hermes-2-pro-mistral" = .success c →
      get_ai_response call = (pyStrip c, 2)) := by
  refine ⟨fun c h1 => ?_, fun c h1 h2 => ?_, fun c h1 h2 h3 => ?_⟩
  · simp [get_ai_response, model_priority, tryModels, h1]
  · simp [get_ai_response, model_priority, tryModels, h1, h2]
  · simp [get_ai_response, model_priority, tryModels, h1, h2, h3]

/-- C4 witness: in the spec scenario (providers 1 and 2 raise, provider 3
returns "OK"), the responder returns "OK" with exactly 2 warnings. -/
theorem get_ai_response_fallback_chain_witness :
    get_ai_response chainScenarioCall = ("OK", 2) := by
  have h := (get_ai_response_fallback_chain chainScenarioCall).2.2 "OK"
    (by decide) (by decide) (by decide)
  have ht : pyStrip "OK" = "OK" := by decide
  rw [ht] at h
  exact h

/-- C5: when every provider call raises, the responder returns the fixed
apology string (after logging one warning per provider); no individual
provider error reaches the returned value, and the total function never
propagates an exception. -/
theorem get_ai_response_all_fail (call : String → ProviderOutcome)
    (h : ∀ m ∈ model_priority, call m = ProviderOutcome.failure) :
    get_ai_response call = (apologyMessage, 3) := by
  have h1 := h "meta-llama/llama-3.1-8b-instruct" (by simp [model_priority])
  have h2 := h "google/gemma-7b-it" (by simp [model_priority])
  have h3 := h "nousresearch/hermes-2-pro-mistral" (by simp [model_priority])
  simp [get_ai_response, model_priority, tryModels, h1, h2, h3]

/-- C5 witness: all three providers raising yields the apology string. -/
theorem get_ai_response_all_fail_witness :
    get_ai_response allFailCall = (apologyMessage, 3) :=
  get_ai_response_all_fail allFailCall (fun _ _ => rfl)

/-! Checkout theorems. -/

/-- C7: an empty cart fails with the EmptyCart error and the store is
returned untouched (no catalog read or write, no order created). -/
theorem checkout_empty_cart (commitOk : Bool) (uid : ℤ) (db : DBState) :
    checkout commitOk uid [] db = (.err .emptyCart, db) := rfl

/-- C1: every checkout call that does not succeed — any handled error
(missing id, invalid line data, item not found, insufficient stock, empty
cart, commit failure) or the unhandled exception — returns the database
state exactly as it was: no partial stock decrement and no partial order
persists. -/
theorem checkout_failure_preserves_state (commitOk : Bool) (uid : ℤ)
    (cart : List CartItem) (db : DBState)
    (h : (checkout commitOk uid cart db).1.isOk = false) :
    (checkout commitOk uid cart db).2 = db := by
  unfold checkout at h ⊢
  cases hc : cart.isEmpty with
  | true => simp [hc]
  | false =>
    simp only [hc, Bool.false_eq_true, if_false] at h ⊢
    cases hp : processCart cart db.catalog 0 [] with
    | error r => simp [hp]
    | ok v =>
      obtain ⟨cat, total, items⟩ := v
      simp only [hp] at h ⊢
      cases commitOk with
      | true => simp [CheckoutResult.isOk] at h
      | false => simp

/-- C1 witness: a concrete rejected checkout (insufficient stock: 200
requested against stock 100) leaves the store unchanged. -/
theorem checkout_failure_preserves_state_witness :
    (checkout true 7
        [{ id := some (.num 1), name := some "Paracetamol",
           price := some (.num 6), quantity := some (.num 200) }]
        db0).1.isOk = false ∧
    (checkout true 7
        [{ id := some (.num 1), name := some "Paracetamol",
           price := some (.num 6), quantity := some (.num 200) }]
        db0).2 = db0 :=
  ⟨by decide, checkout_failure_preserves_state true 7 _ db0 (by decide)⟩

/-- C10: a cart line naming an existing medicine with insufficient stock
but carrying no "name" field makes checkout raise an unhandled KeyError
(the error message indexes `item["name"]` directly, unlike every other
branch, which uses `item.get("name", "unknown")`), so the caller gets an
unhandled exception rather than a handled error response. -/
theorem checkout_insufficient_stock_keyerror (commitOk : Bool) (uid : ℤ)
    (item : CartItem) (rest : List CartItem) (db : DBState)
    (v : PyVal) (p q : ℚ) (m : Medicine)
    (hid : item.id = some v) (htr : v.truthy = true)
    (hp : asNum item.price = some p) (hq : asNum item.quantity = some q)
    (hm : getMedicine db.catalog v = some m) (hs : m.quantity < q)
    (hn : item.name = none) :
    checkout commitOk uid (item :: rest) db = (.exc, db) := by
  simp [checkout, processCart, hid, htr, hp, hq, hm, hs, hn,
    CheckoutFailure.toResult]

/-- C10 witness: requesting 200 Paracetamol (stock 100) on a line without a
name field yields the unhandled-exception outcome. -/
theorem checkout_insufficient_stock_keyerror_witness :
    checkout true 7
        [{ id := some (.num 1), name := none,
           price := some (.num 6), quantity := some (.num 200) }]
        db0 = (.exc, db0) :=
  checkout_insufficient_stock_keyerror true 7 _ [] db0 (.num 1) 6 200
    { id := 1, name := "Paracetamol", quantity := 100, price := 6 }
    rfl (by decide) rfl rfl (by decide) (by decide) rfl

/-- C3: checkout validates cart lines one at a time in input order, and for
the first failing line returns the error of the first failing check in the
fixed check order: missing/empty id → MissingItemId; absent or non-numeric
price or quantity (regardless of whether the id would resolve) →
InvalidLineData; unresolvable id → ItemNotFound; stock below the requested
quantity → InsufficientStock.  A fully valid line stages its writes and
processing continues with the remaining lines. -/
theorem checkout_check_order (commitOk : Bool) (uid : ℤ)
    (item : CartItem) (rest : List CartItem) (db : DBState) :
    (item.id = none →
      checkout commitOk uid (item :: rest) db
        = (.err (.missingId (nameOr item)), db)) ∧
    (∀ v, item.id = some v → v.truthy = false →
      checkout commitOk uid (item :: rest) db
        = (.err (.missingId (nameOr item)), db)) ∧
    (∀ v, item.id = some v → v.truthy = true →
      (asNum item.price = none ∨ asNum item.quantity = none) →
      checkout commitOk uid (item :: rest) db
        = (.err (.invalidLineData (nameOr item)), db)) ∧
    (∀ v p q, item.id = some v → v.truthy = true →
      asNum item.price = some p → asNum item.quantity = some q →
      getMedicine db.catalog v = none →
      checkout commitOk uid (item :: rest) db
        = (.err (.itemNotFound (nameOr item)), db)) ∧
    (∀ v p q m n, item.id = some v → v.truthy = true →
      asNum item.price = some p → asNum item.quantity = some q →
      getMedicine db.catalog v = some m → m.quantity < q →
      item.name = some n →
      checkout commitOk uid (item :: rest) db
        = (.err (.insufficientStock n), db)) ∧
    (∀ v p q m, item.id = some v → v.truthy = true →
      asNum item.price = some p → asNum item.quantity = some q →
      getMedicine db.catalog v = some m → ¬ m.quantity < q →
      processCart (item :: rest) db.catalog 0 []
        = processCart rest (decrementFirst db.catalog m.id q) (0 + p * q)
            ([] ++ [⟨m.id, q, p⟩])) := by
  refine ⟨fun hid => ?_, fun v hid htr => ?_, fun v hid htr hbad => ?_,
    fun v p q hid htr hp hq hm => ?_, fun v p q m n hid htr hp hq hm hs hn => ?_,
    fun v p q m hid htr hp hq hm hs => ?_⟩
  · simp [checkout, processCart, hid, CheckoutFailure.toResult]
  · simp [checkout, processCart, hid, htr, CheckoutFailure.toResult]
  · rcases hbad with hbad | hbad
    · simp [checkout, processCart, hid, htr, hbad, CheckoutFailure.toResult]
    · cases hp : asNum item.price with
      | none => simp [checkout, processCart, hid, htr, hp, CheckoutFailure.toResult]
      | some p => simp [checkout, processCart, hid, htr, hp, hbad, CheckoutFailure.toResult]
  · simp [checkout, processCart, hid, htr, hp, hq, hm, CheckoutFailure.toResult]
  · simp [checkout, processCart, hid, htr, hp, hq, hm, hs, hn, CheckoutFailure.toResult]
  · simp [processCart, hid, htr, hp, hq, hm, hs]

/-- C3 witness: a line whose id resolves but whose price is the string
"abc" (non-numeric) is rejected with InvalidLineData. -/
theorem checkout_check_order_witness :
    checkout true 7
        [{ id := some (.num 1), name := some "Paracetamol",
           price := some (.str "abc"), quantity := some (.num 2) }]
        db0 = (.err (.invalidLineData "Paracetamol"), db0) :=
  (checkout_check_order true 7 _ [] db0).2.2.1 (.num 1) rfl (by decide)
    (Or.inl rfl)

/-! Helper lemmas about the staged-catalog updates. -/

/-- Decrementing a quantity leaves every row id in place. -/
theorem decrementFirst_map_id (cat : List Medicine) (mid : ℤ) (a : ℚ) :
    (decrementFirst cat mid a).map Medicine.id = cat.map Medicine.id := by
  induction cat with
  | nil => rfl
  | cons m rest ih =>
    by_cases h : m.id = mid <;> simp [decrementFirst, h, ih]

/-- The id of the row found by the lookup is unchanged by a staged
decrement (the find predicate only reads ids, which are preserved). -/
theorem find_id_decrementFirst (cat : List Medicine) (mid : ℤ) (a : ℚ) (q : ℚ) :
    ((decrementFirst cat mid a).find? (fun m => (m.id : ℚ) == q)).map Medicine.id
      = (cat.find? (fun m => (m.id : ℚ) == q)).map Medicine.id := by
  induction cat with
  | nil => rfl
  | cons m rest ih =>
    by_cases hm : m.id = mid
    · subst hm
      cases hq : ((m.id : ℚ) == q) <;>
        simp [decrementFirst, List.find?, hq, ih]
    · cases hq : ((m.id : ℚ) == q) <;>
        simp [decrementFirst, hm, List.find?, hq, ih]

/-- Id-level view of the lookup after a staged decrement. -/
theorem getMedicine_id_decrementFirst (cat : List Medicine) (mid : ℤ) (a : ℚ)
    (v : PyVal) :
    (getMedicine (decrementFirst cat mid a) v).map Medicine.id
      = (getMedicine cat v).map Medicine.id := by
  cases hv : idOfVal v with
  | none => simp [getMedicine, hv]
  | some q => simp [getMedicine, hv, find_id_decrementFirst]

/-- Which row a cart line resolves to is unchanged by a staged decrement. -/
theorem lineKey_decrementFirst (cat : List Medicine) (mid : ℤ) (a : ℚ)
    (l : CartItem) :
    lineKey (decrementFirst cat mid a) l = lineKey cat l := by
  cases hid : l.id with
  | none => simp [lineKey, hid]
  | some v => simp [lineKey, hid, getMedicine_id_decrementFirst]

/-- Requested totals per row are unchanged by a staged decrement. -/
theorem requestedFor_decrementFirst (cat : List Medicine) (mid : ℤ) (a : ℚ)
    (cart : List CartItem) (k : ℤ) :
    requestedFor (decrementFirst cat mid a) cart k = requestedFor cat cart k := by
  simp [requestedFor, lineKey_decrementFirst]

/-- Composition of two pointwise list relations. -/
theorem forall₂_comp {α β γ : Type} {r : α → β → Prop} {s : β → γ → Prop}
    {t : α → γ → Prop} (h : ∀ a b c, r a b → s b c → t a c) :
    ∀ {l₁ : List α} {l₂ : List β} {l₃ : List γ},
      List.Forall₂ r l₁ l₂ → List.Forall₂ s l₂ l₃ → List.Forall₂ t l₁ l₃ := by
  intro l₁ l₂ l₃ h₁₂
  induction h₁₂ generalizing l₃ with
  | nil =>
    intro h₂₃
    cases h₂₃
    exact .nil
  | cons hab hrest ih =>
    intro h₂₃
    cases h₂₃ with
    | cons hbc h' => exact .cons (h _ _ _ hab hbc) (ih h')

/-- Inversion of one successful line: the line passed every check and the
loop continued on the staged state. -/
theorem processCart_cons_ok (item : CartItem) (rest : List CartItem)
    (cat : List Medicine) (t : ℚ) (acc : List OrderItem)
    (out : List Medicine × ℚ × List OrderItem)
    (h : processCart (item :: rest) cat t acc = .ok out) :
    ∃ v p q m, item.id = some v ∧ v.truthy = true ∧
      asNum item.price = some p ∧ asNum item.quantity = some q ∧
      getMedicine cat v = some m ∧ ¬ m.quantity < q ∧
      processCart rest (decrementFirst cat m.id q) (t + p * q)
        (acc ++ [⟨m.id, q, p⟩]) = .ok out := by
  cases hid : item.id with
  | none => simp [processCart, hid] at h
  | some v =>
    cases htr : v.truthy with
    | false => simp [processCart, hid, htr] at h
    | true =>
      cases hp : asNum item.price with
      | none => simp [processCart, hid, htr, hp] at h
      | some p =>
        cases hq : asNum item.quantity with
        | none => simp [processCart, hid, htr, hp, hq] at h
        | some q =>
          cases hm : getMedicine cat v with
          | none => simp [processCart, hid, htr, hp, hq, hm] at h
          | some m =>
            by_cases hs : m.quantity < q
            · cases hn : item.name <;>
                simp [processCart, hid, htr, hp, hq, hm, hs, hn] at h
            · refine ⟨v, p, q, m, rfl, htr, rfl, rfl, hm, hs, ?_⟩
              simpa [processCart, hid, htr, hp, hq, hm, hs] using h

/-- Pointwise effect of one staged decrement on a duplicate-free catalog:
only the (unique) row with the decremented id changes, and only in its
quantity. -/
theorem decrementFirst_forall₂ (mid : ℤ) (a : ℚ) :
    ∀ (cat : List Medicine), (cat.map Medicine.id).Nodup →
      List.Forall₂ (fun m m' => m'.id = m.id ∧ m'.name = m.name ∧
        m'.price = m.price ∧
        m'.quantity = m.quantity - (if m.id = mid then a else 0))
        cat (decrementFirst cat mid a) := by
  intro cat
  induction cat with
  | nil => intro _; exact .nil
  | cons m rest ih =>
    intro hnd
    rw [List.map_cons, List.nodup_cons] at hnd
    by_cases hm : m.id = mid
    · simp only [decrementFirst, if_pos hm]
      refine List.Forall₂.cons ⟨rfl, rfl, rfl, by rw [if_pos hm]⟩ ?_
      refine List.forall₂_same.mpr (fun x hx => ⟨rfl, rfl, rfl, ?_⟩)
      have hxne : x.id ≠ mid := by
        intro hxe
        apply hnd.1
        have hmem : x.id ∈ rest.map Medicine.id := List.mem_map_of_mem Medicine.id hx
        rwa [hxe, ← hm] at hmem
      rw [if_neg hxne, sub_zero]
    · simp only [decrementFirst, if_neg hm]
      exact List.Forall₂.cons ⟨rfl, rfl, rfl, by rw [if_neg hm, sub_zero]⟩ (ih hnd.2)

/-- The row a passing stock check guards ends non-negative after its
decrement; untouched rows are unchanged.  No duplicate-free assumption is
needed: the looked-up row is the first row with its id, which is exactly
the row the decrement hits. -/
theorem decrementFirst_nonnegPres (cat : List Medicine) (v : PyVal)
    (med : Medicine) (q : ℚ)
    (hm : getMedicine cat v = some med) (hs : ¬ med.quantity < q) :
    NonnegPres cat (decrementFirst cat med.id q) := by
  cases hv : idOfVal v with
  | none => simp [getMedicine, hv] at hm
  | some qv =>
    simp only [getMedicine, hv, Option.some_bind] at hm
    clear hv
    induction cat with
    | nil => simp at hm
    | cons m rest ih =>
      cases hpm : ((m.id : ℚ) == qv) with
      | true =>
        simp only [List.find?, hpm, Option.some.injEq] at hm
        subst hm
        simp only [decrementFirst, if_pos rfl]
        refine List.Forall₂.cons (fun _ => ?_) (List.forall₂_same.mpr fun x _ => id)
        exact sub_nonneg.mpr (le_of_not_lt hs)
      | false =>
        simp only [List.find?, hpm] at hm
        have hmed := List.find?_some hm
        have hne : m.id ≠ med.id := by
          intro he
          have h1 : (med.id : ℚ) = qv := by simpa using hmed
          have h2 : (m.id : ℚ) ≠ qv := by simpa using hpm
          exact h2 (by rw [he]; exact h1)
        simp only [decrementFirst, if_neg hne]
        exact List.Forall₂.cons (fun h => h) (ih hm)

/-- Across the whole per-line loop, a row quantity that was non-negative
stays non-negative in the staged catalog. -/
theorem processCart_nonneg (cart : List CartItem) :
    ∀ (cat : List Medicine) (t : ℚ) (acc : List OrderItem)
      (cat' : List Medicine) (t' : ℚ) (items' : List OrderItem),
      processCart cart cat t acc = .ok (cat', t', items') →
      NonnegPres cat cat' := by
  induction cart with
  | nil =>
    intro cat t acc cat' t' items' h
    simp only [processCart, Except.ok.injEq, Prod.mk.injEq] at h
    obtain ⟨h1, _, _⟩ := h
    subst h1
    exact List.forall₂_same.mpr fun x _ => id
  | cons item rest ih =>
    intro cat t acc cat' t' items' h
    obtain ⟨v, p, q, med, hid, htr, hp, hq, hm, hs, hrec⟩ :=
      processCart_cons_ok _ _ _ _ _ _ h
    exact forall₂_comp (fun a b c hab hbc h0 => hbc (hab h0))
      (decrementFirst_nonnegPres _ _ _ _ hm hs) (ih _ _ _ _ _ _ hrec)

/-- Full characterisation of a successful per-line loop: the total it
returns is the starting total plus the cart's client-priced total, the
staged order lines sum to the same amount, and (over a duplicate-free
catalog) every row loses exactly the quantity the cart requested
from it. -/
theorem processCart_ok_spec (cart : List CartItem) :
    ∀ (cat : List Medicine) (t : ℚ) (acc : List OrderItem)
      (cat' : List Medicine) (t' : ℚ) (items' : List OrderItem),
      processCart cart cat t acc = .ok (cat', t', items') →
      t' = t + cartTotal cart ∧
      itemsSum items' = itemsSum acc + cartTotal cart ∧
      ((cat.map Medicine.id).Nodup → DecrementedBy cart cat cat') := by
  induction cart with
  | nil =>
    intro cat t acc cat' t' items' h
    simp only [processCart, Except.ok.injEq, Prod.mk.injEq] at h
    obtain ⟨h1, h2, h3⟩ := h
    subst h1; subst h2; subst h3
    refine ⟨by simp [cartTotal], by simp [cartTotal], fun _ => ?_⟩
    refine List.forall₂_same.mpr fun x _ => ⟨rfl, rfl, rfl, ?_⟩
    simp [requestedFor]
  | cons item rest ih =>
    intro cat t acc cat' t' items' h
    obtain ⟨v, p, q, med, hid, htr, hp, hq, hm, hs, hrec⟩ :=
      processCart_cons_ok _ _ _ _ _ _ h
    obtain ⟨ht, hi, hdec⟩ := ih _ _ _ _ _ _ hrec
    have hct : cartTotal (item :: rest) = p * q + cartTotal rest := by
      simp [cartTotal, hp, hq]
    have hkey : lineKey cat item = some med.id := by
      simp [lineKey, hid, hm]
    refine ⟨by rw [ht, hct]; ring, ?_, ?_⟩
    · rw [hi, hct]
      simp only [itemsSum, List.map_append, List.sum_append, List.map_cons,
        List.map_nil, List.sum_cons, List.sum_nil]
      ring
    · intro hnd
      have hnd' : ((decrementFirst cat med.id q).map Medicine.id).Nodup := by
        rw [decrementFirst_map_id]; exact hnd
      have h2 := hdec hnd'
      have h2' : List.Forall₂ (fun m₁ m' => m'.id = m₁.id ∧ m'.name = m₁.name ∧
          m'.price = m₁.price ∧
          m'.quantity = m₁.quantity - requestedFor cat rest m₁.id)
          (decrementFirst cat med.id q) cat' := by
        refine List.Forall₂.imp ?_ h2
        intro a b hab
        exact ⟨hab.1, hab.2.1, hab.2.2.1,
          by rw [hab.2.2.2, requestedFor_decrementFirst]⟩
      have h1 := decrementFirst_forall₂ med.id q cat hnd
      refine forall₂_comp ?_ h1 h2'
      intro a b c hab hbc
      rcases hab with ⟨hbid, hbname, hbprice, hbq⟩
      rcases hbc with ⟨hcid, hcname, hcprice, hcq⟩
      refine ⟨hcid.trans hbid, hcname.trans hbname, hcprice.trans hbprice, ?_⟩
      rw [hcq, hbid, hbq]
      simp only [requestedFor, List.map_cons, List.sum_cons, hkey, hq,
        Option.getD_some, Option.some.injEq]
      by_cases hca : a.id = med.id
      · rw [if_pos hca, if_pos hca.symm]
        ring
      · rw [if_neg hca, if_neg (fun hcon => hca hcon.symm)]
        ring

/-- C6: for every checkout call, successful or not, no catalog row whose
quantity was non-negative before the call is negative after it — including
carts with several lines for the same row, because each line's stock check
reads the already-staged decrements through the session identity map. -/
theorem checkout_nonneg_invariant (commitOk : Bool) (uid : ℤ)
    (cart : List CartItem) (db : DBState) :
    NonnegPres db.catalog ((checkout commitOk uid cart db).2).catalog := by
  unfold checkout
  cases hc : cart.isEmpty with
  | true => exact List.forall₂_same.mpr fun x _ => id
  | false =>
    cases hp : processCart cart db.catalog 0 [] with
    | error f => exact List.forall₂_same.mpr fun x _ => id
    | ok out =>
      obtain ⟨cat, total, items⟩ := out
      cases commitOk with
      | true => exact processCart_nonneg _ _ _ _ _ _ _ hp
      | false => exact List.forall₂_same.mpr fun x _ => id

/-- C2: a successful checkout returns exactly the sum over the cart lines
of client-supplied price times requested quantity (the price is not
re-read from the catalog), appends exactly one order for this user whose
stored total equals that sum and whose line items' quantity × unitPrice
sum to the same total exactly, and decrements each referenced catalog row
by exactly the quantity the cart requested from it, touching nothing
else. -/
theorem checkout_success_spec (uid : ℤ) (cart : List CartItem) (db : DBState)
    (t : ℚ) (db' : DBState)
    (hnd : (db.catalog.map Medicine.id).Nodup)
    (h : checkout true uid cart db = (.ok t, db')) :
    t = cartTotal cart ∧
    (∃ o : Order, db'.orders = db.orders ++ [o] ∧ o.userId = uid ∧
      o.total = t ∧ itemsSum o.items = t) ∧
    DecrementedBy cart db.catalog db'.catalog := by
  unfold checkout at h
  by_cases hc : cart.isEmpty = true
  · rw [if_pos hc] at h
    exact absurd h (by simp)
  · rw [if_neg hc] at h
    cases hp : processCart cart db.catalog 0 [] with
    | error f =>
      rw [hp] at h
      cases f <;> simp [CheckoutFailure.toResult] at h
    | ok out =>
      obtain ⟨cat, total, items⟩ := out
      rw [hp] at h
      simp only [if_true, Prod.mk.injEq, CheckoutResult.ok.injEq] at h
      obtain ⟨h1, h2⟩ := h
      subst h1
      subst h2
      obtain ⟨ht, hi, hdec⟩ :=
        processCart_ok_spec cart db.catalog 0 [] cat total items hp
      refine ⟨by rw [ht, zero_add], ⟨⟨uid, total, items⟩, rfl, rfl, rfl, ?_⟩,
        hdec hnd⟩
      rw [hi, ht]
      simp [itemsSum]

/-- C2 witness: the spec's scenario — a one-line cart [Paracetamol,
price 5.99, quantity 2] against stock 100 — succeeds with total 11.98,
stock 98, and the stored order's line items sum to its total. -/
theorem checkout_success_spec_witness :
    checkout true 1 cartScenario dbScenario
      = (.ok 11.98,
         { catalog := [{ id := 1, name := "Paracetamol", quantity := 98,
                         price := 5.99 }],
           orders := [{ userId := 1, total := 11.98,
                        items := [{ medicineId := 1, quantity := 2,
                                    price := 5.99 }] }] }) ∧
    (11.98 : ℚ) = cartTotal cartScenario ∧
    DecrementedBy cartScenario dbScenario.catalog
      [{ id := 1, name := "Paracetamol", quantity := 98, price := 5.99 }] := by
  have hrun : checkout true 1 cartScenario dbScenario
      = (.ok 11.98,
         { catalog := [{ id := 1, name := "Paracetamol", quantity := 98,
                         price := 5.99 }],
           orders := [{ userId := 1, total := 11.98,
                        items := [{ medicineId := 1, quantity := 2,
                                    price := 5.99 }] }] }) := by
    norm_num [checkout, processCart, cartScenario, dbScenario, getMedicine,
      idOfVal, asNum, PyVal.truthy, decrementFirst, List.find?]
  have hspec := checkout_success_spec 1 cartScenario dbScenario 11.98 _
    (by simp [dbScenario]) hrun
  exact ⟨hrun, hspec.1, hspec.2.2⟩

/-- C9: checkout does not reject a negative requested quantity: with an
existing catalog row, numeric price and quantity, requested quantity q < 0
and non-negative stock, the stock check passes, checkout succeeds, the
referenced row's quantity increases by |q| (every other row unchanged),
and the order total is p·q = -(|q|·p): it is decreased by |q| times the
client price. -/
theorem checkout_negative_quantity (uid : ℤ) (item : CartItem) (db : DBState)
    (v : PyVal) (p q : ℚ) (med : Medicine)
    (hnd : (db.catalog.map Medicine.id).Nodup)
    (hid : item.id = some v) (htr : v.truthy = true)
    (hp : asNum item.price = some p) (hq : asNum item.quantity = some q)
    (hm : getMedicine db.catalog v = some med) (hqneg : q < 0)
    (hstock : 0 ≤ med.quantity) :
    (checkout true uid [item] db).1 = .ok (p * q) ∧
    p * q = -(|q| * p) ∧
    List.Forall₂ (fun m m' => m'.id = m.id ∧
      (m.id = med.id → m'.quantity = m.quantity + |q|) ∧
      (m.id ≠ med.id → m'.quantity = m.quantity))
      db.catalog ((checkout true uid [item] db).2).catalog := by
  have hs : ¬ med.quantity < q := by
    intro hlt
    exact absurd (hlt.trans hqneg) (not_lt.mpr hstock)
  have habs : |q| = -q := abs_of_neg hqneg
  have hrun : checkout true uid [item] db
      = (.ok (p * q),
         { catalog := decrementFirst db.catalog med.id q,
           orders := db.orders ++ [⟨uid, p * q, [⟨med.id, q, p⟩]⟩] }) := by
    simp [checkout, processCart, hid, htr, hp, hq, hm, hs]
  refine ⟨by rw [hrun], by rw [habs]; ring, ?_⟩
  rw [hrun]
  refine List.Forall₂.imp ?_ (decrementFirst_forall₂ med.id q db.catalog hnd)
  intro a b hab
  refine ⟨hab.1, fun hca => ?_, fun hca => ?_⟩
  · rw [hab.2.2.2, if_pos hca, habs]; ring
  · rw [hab.2.2.2, if_neg hca, sub_zero]

/-- C9 witness: requesting -3 Paracetamol against stock 100 succeeds with
total 6·(-3) = -18 and raises the stock (by 3, to 103). -/
theorem checkout_negative_quantity_witness :
    (checkout true 7 [negQtyItem] db0).1 = .ok (6 * (-3)) ∧
    (6 : ℚ) * (-3) = -(|(-3 : ℚ)| * 6) ∧
    List.Forall₂ (fun m m' => m'.id = m.id ∧
      (m.id = (1 : ℤ) → m'.quantity = m.quantity + |(-3 : ℚ)|) ∧
      (m.id ≠ (1 : ℤ) → m'.quantity = m.quantity))
      db0.catalog ((checkout true 7 [negQtyItem] db0).2).catalog :=
  checkout_negative_quantity 7 negQtyItem db0 (.num 1) 6 (-3)
    { id := 1, name := "Paracetamol", quantity := 100, price := 6 }
    (by decide) rfl (by decide) rfl rfl (by decide) (by decide) (by decide)

end MedicineFinder
